import Mathlib

/-!
# Verification of the BBQ cooking engine (`dist/services/cooking.js`)

This file is a shallow embedding of the temperature-progress reasoning engine
of the bbq-mcp repository, together with proofs of the specification claims.

Modelling conventions:

* JavaScript numbers are modelled as exact rationals (`ℚ`).  `Math.round`
  is `⌊x + 1/2⌋` (JS rounds half toward +∞), `Math.floor` is `⌊x⌋`, and the
  JS remainder `%` truncates toward zero.  The one place where the source can
  divide by zero (the percent-complete computation in `analyzeTemperature`)
  is modelled with an explicit IEEE-style value type `JSNum` carrying
  `NaN`/`±∞`, since JS `Math.min`/`Math.max` propagate `NaN` through the
  clamp there.
* `Date` values are rationals counting milliseconds.  The ambient clock read
  by `new Date()` in the source is made explicit as a `nowMs : ℚ` argument
  of the operations that call it (`estimateCookTime`, `calculateStartTime`,
  `detectStall`).  The source pattern `d.setMinutes(d.getMinutes() + m)` is
  modelled as exact minute addition on the timestamp (`dateAddMinutes`);
  the sub-minute truncation JS performs on a fractional argument is
  immaterial to every claim below, none of which constrains the exact
  completion timestamp.
* The Knowledge Base (`PROTEIN_PROFILES` in `constants.js`, static data the
  spec treats as an external collaborator) is an explicit parameter
  `kb : KB := String → Option ProteinProfile`.  In JS, looking up an unknown
  protein yields `undefined` and the very first property access on the
  profile throws; every engine operation dereferences the profile before
  doing anything else, so that failure is the single error of the engine and
  is modelled as `EngineError.unknownProtein`.
* String formatting of numbers inside human-readable messages uses the Lean
  `toString` on `ℚ`/`ℤ`; the exact numeral rendering differs from JS but no
  claim constrains it.
-/

/-- Temperature units accepted by `convertTemperature`. -/
inductive TempUnit where
  | fahrenheit
  | celsius
deriving DecidableEq, Repr

/-- Cook methods (`CookMethod` union type in `types.ts`). -/
inductive CookMethod where
  | smoke_low_slow
  | smoke_hot_fast
  | grill_direct
  | grill_indirect
  | reverse_sear
  | spatchcock
  | rotisserie
deriving DecidableEq, Repr

/-- Doneness levels (`DonenessLevel` union type in `types.ts`). -/
inductive DonenessLevel where
  | rare
  | medium_rare
  | medium
  | medium_well
  | well_done
  | pullable
  | usda_safe
deriving DecidableEq, Repr

/-- Protein categories (`ProteinProfile.category` in `types.ts`). -/
inductive Category where
  | beef
  | pork
  | poultry
  | lamb
  | seafood
deriving DecidableEq, Repr

/-- Confidence tier of a cook-time estimate. -/
inductive Confidence where
  | high
  | medium
  | low
deriving DecidableEq, Repr

/-- Trend classification of `analyzeTemperature`. -/
inductive Trend where
  | rising
  | falling
  | stable
  | stalled
deriving DecidableEq, Repr

/-- A stall temperature range (`stallRange` field; source field names
`start`/`end`, the latter renamed `stop` because `end` is reserved). -/
structure StallRange where
  start : ℚ
  stop : ℚ
deriving DecidableEq, Repr

/-- A caller-supplied temperature reading: temperature in °F and a timestamp
in milliseconds (the value of JS `Date.getTime()`). -/
structure Reading where
  temp : ℚ
  timestamp : ℚ
deriving DecidableEq, Repr

/-- `ProteinProfile` from `types.ts`.  `estimatedTimePerPound` is a total
`Record<CookMethod, number>` and is embedded as a function. -/
structure ProteinProfile where
  displayName : String
  category : Category
  usdaSafeTemp : ℚ
  requiresRest : Bool
  restTimeMinutes : ℚ
  carryoverDegrees : ℚ
  donenessTemps : List (DonenessLevel × ℚ)
  recommendedMethods : List CookMethod
  stallRange : Option StallRange
  estimatedTimePerPound : CookMethod → ℚ
  tips : List String

/-- The Knowledge Base: protein identifier → profile.  `PROTEIN_PROFILES` in
`constants.js` instantiates this; the engine is parametric in it. -/
def KB : Type := String → Option ProteinProfile

/-- The single failure mode of the engine: the protein identifier is not in
the Knowledge Base, so the profile dereference fails. -/
inductive EngineError where
  | unknownProtein
deriving DecidableEq, Repr

/-- `DEFAULT_SMOKER_TEMP` from `constants.js` (declared in `constants.d.ts`). -/
def DEFAULT_SMOKER_TEMP : ℚ := 225

/-- `HOT_FAST_TEMP` from `constants.js` (declared in `constants.d.ts`). -/
def HOT_FAST_TEMP : ℚ := 300

/-- JS `Math.round`: round half toward positive infinity. -/
def jsRound (q : ℚ) : ℤ := ⌊q + 1 / 2⌋

/-- JS truncation toward zero (how `%` forms its quotient). -/
def jsTrunc (q : ℚ) : ℤ := if 0 ≤ q then ⌊q⌋ else ⌈q⌉

/-- JS remainder `a % b` (sign follows the dividend). -/
def jsRem (a b : ℚ) : ℚ := a - b * jsTrunc (a / b)

/-- Round to one decimal place as the source does:
`Math.round(x * 10) / 10`. -/
def round1 (q : ℚ) : ℚ := (jsRound (q * 10) : ℚ) / 10

/-- An IEEE-style JS number: finite, `±Infinity`, or `NaN`.  Used only where
the source can actually produce a non-finite value (the percent-complete
division in `analyzeTemperature`). -/
inductive JSNum where
  | num : ℚ → JSNum
  | posInf
  | negInf
  | nan
deriving DecidableEq, Repr

/-- JS division of two finite numbers: `x / 0` is `±Infinity`, `0 / 0` is
`NaN`. -/
def jsDivQ (a b : ℚ) : JSNum :=
  if b = 0 then
    if a = 0 then .nan else if 0 < a then .posInf else .negInf
  else
    .num (a / b)

/-- JS multiplication of a (possibly non-finite) number by a finite one. -/
def jsMul (x : JSNum) (c : ℚ) : JSNum :=
  match x with
  | .num q => .num (q * c)
  | .nan => .nan
  | .posInf => if c = 0 then .nan else if 0 < c then .posInf else .negInf
  | .negInf => if c = 0 then .nan else if 0 < c then .negInf else .posInf

/-- JS `Math.max(c, x)` with a finite first argument: `NaN` propagates. -/
def jsMax (c : ℚ) (x : JSNum) : JSNum :=
  match x with
  | .num q => .num (max c q)
  | .nan => .nan
  | .posInf => .posInf
  | .negInf => .num c

/-- JS `Math.min(c, x)` with a finite first argument: `NaN` propagates. -/
def jsMin (c : ℚ) (x : JSNum) : JSNum :=
  match x with
  | .num q => .num (min c q)
  | .nan => .nan
  | .posInf => .num c
  | .negInf => .negInf

/-- `Math.round(x * 10) / 10` lifted to `JSNum` (rounding fixes `NaN` and
`±Infinity`). -/
def jsRound10 (x : JSNum) : JSNum :=
  match x with
  | .num q => .num (round1 q)
  | other => other

/-- JS comparison `x < c` with a finite right operand (`NaN < c` is false). -/
def jsLtC (x : JSNum) (c : ℚ) : Bool :=
  match x with
  | .num q => decide (q < c)
  | .negInf => true
  | _ => false

/-- JS `array.slice(-n)`: the last `n` elements (all of them when the array
is shorter). -/
def lastN (n : ℕ) (l : List Reading) : List Reading := l.drop (l.length - n)

/-- Modelled from the spec: the cook-method metadata table of the Knowledge Base
(`COOK_METHOD_INFO` in `constants.js`) is static external data absent from
the embedded sources; only the display name is consumed by the engine, in
the "not recommended" warning of `estimateCookTime`.  No claim constrains
the exact strings. -/
def cookMethodDisplayName : CookMethod → String
  | .smoke_low_slow => "Low and Slow Smoking"
  | .smoke_hot_fast => "Hot and Fast Smoking"
  | .grill_direct => "Direct Grilling"
  | .grill_indirect => "Indirect Grilling"
  | .reverse_sear => "Reverse Sear"
  | .spatchcock => "Spatchcock"
  | .rotisserie => "Rotisserie"

/-- Net effect on a millisecond timestamp of the source pattern
`d.setMinutes(d.getMinutes() + m)`: shift by `m` minutes. -/
def dateAddMinutes (ms m : ℚ) : ℚ := ms + 60000 * m

/-- `getProteinProfile` (cooking.js line 9): a bare Knowledge-Base lookup. -/
def getProteinProfile (kb : KB) (proteinType : String) : Option ProteinProfile :=
  kb proteinType

/-- Association-list lookup in the doneness-temperature map, first match
wins (JS object key lookup). -/
def lookupDoneness (m : List (DonenessLevel × ℚ)) (d : DonenessLevel) : Option ℚ :=
  (m.find? (fun e => e.1 = d)).map (fun e => e.2)

/-- Result of `getTargetTemperature`.  `doneness` is `none` when the profile
has an empty doneness map (JS would return `undefined` there). -/
structure TargetResult where
  targetTemp : ℚ
  pullTemp : ℚ
  doneness : Option DonenessLevel
deriving DecidableEq, Repr

/-- `getTargetTemperature` (cooking.js lines 15-30): choose the requested
doneness when it is defined in the profile, otherwise the first key of the
doneness map; target falls back to `usdaSafeTemp`; pull temperature is
target minus carryover. -/
def getTargetTemperature (kb : KB) (proteinType : String)
    (doneness : Option DonenessLevel) : Except EngineError TargetResult :=
  match kb proteinType with
  | none => .error .unknownProtein
  | some profile =>
    let actualDoneness : Option DonenessLevel :=
      match doneness with
      | some d =>
        if (lookupDoneness profile.donenessTemps d).isSome then some d
        else (profile.donenessTemps.map (fun e => e.1)).head?
      | none => (profile.donenessTemps.map (fun e => e.1)).head?
    let targetTemp :=
      (actualDoneness.bind (lookupDoneness profile.donenessTemps)).getD profile.usdaSafeTemp
    let pullTemp := targetTemp - profile.carryoverDegrees
    .ok { targetTemp := targetTemp, pullTemp := pullTemp, doneness := actualDoneness }

/-- `convertTemperature` (cooking.js lines 383-392): identity on equal
units; F→C rounds to one decimal; anything else (i.e. C→F) rounds to an
integer. -/
def convertTemperature (temp : ℚ) (fromUnit toUnit : TempUnit) : ℚ :=
  if fromUnit = toUnit then temp
  else if fromUnit = .fahrenheit ∧ toUnit = .celsius then
    (jsRound ((temp - 32) * 5 / 9 * 10) : ℚ) / 10
  else
    (jsRound (temp * 9 / 5 + 32) : ℚ)

/-- `CookTimeEstimate` (types.ts).  `totalMinutes` is the rounded integer
the source returns; `estimatedDoneTime` is a millisecond timestamp. -/
structure CookTimeEstimate where
  totalMinutes : ℤ
  hoursAndMinutes : String
  estimatedDoneTime : ℚ
  confidence : Confidence
  assumptions : List String
  warnings : List String
deriving DecidableEq, Repr

/-- `estimateCookTime` (cooking.js lines 34-99).  `nowMs` is the value of
`new Date()` the source reads from the ambient clock.  The `if (smokerTemp)`
truthiness test of the source makes a supplied `0` behave like an absent
smoker temperature. -/
def estimateCookTime (kb : KB) (proteinType : String) (weightPounds : ℚ)
    (cookMethod : CookMethod) (smokerTemp : Option ℚ) (nowMs : ℚ) :
    Except EngineError CookTimeEstimate :=
  match kb proteinType with
  | none => .error .unknownProtein
  | some profile =>
    let baseTimePerPound := profile.estimatedTimePerPound cookMethod
    if baseTimePerPound = 0 then
      .ok { totalMinutes := 0
            hoursAndMinutes := "Not recommended"
            estimatedDoneTime := nowMs
            confidence := .low
            assumptions := []
            warnings := [cookMethodDisplayName cookMethod ++
              " is not recommended for " ++ profile.displayName] }
    else
      let baseTemp := if cookMethod = .smoke_hot_fast then HOT_FAST_TEMP else DEFAULT_SMOKER_TEMP
      let tempAdjustment : ℚ :=
        match smokerTemp with
        | none => 1
        | some st =>
          if st = 0 then 1
          else max (1 / 2) (min (3 / 2) (1 - (st - baseTemp) / 250))
      let baseMinutes := baseTimePerPound * weightPounds * tempAdjustment
      let totalMinutes := if profile.stallRange.isSome then baseMinutes + 60 else baseMinutes
      let assumptions :=
        (if profile.stallRange.isSome then
          ["Includes ~1 hour buffer for the stall (150-175°F range)",
           "Wrapping can reduce stall time by 30-50%"] else []) ++
        (if profile.requiresRest ∧ 0 < profile.restTimeMinutes then
          ["Add " ++ toString profile.restTimeMinutes ++ " minutes rest time before serving"]
         else [])
      let estimatedDoneTime := dateAddMinutes nowMs totalMinutes
      let confidence : Confidence :=
        if profile.stallRange.isSome then .low
        else if 50 < baseTimePerPound then .medium
        else .high
      let warnings :=
        if profile.stallRange.isSome then
          ["Large cuts with stalls are unpredictable - plan for variability"]
        else []
      let hours := ⌊totalMinutes / 60⌋
      let minutes := jsRound (jsRem totalMinutes 60)
      let hoursAndMinutes :=
        if 0 < hours then
          toString hours ++ " hour" ++ (if 1 < hours then "s" else "") ++ " " ++
            toString minutes ++ " minutes"
        else toString minutes ++ " minutes"
      .ok { totalMinutes := jsRound totalMinutes
            hoursAndMinutes := hoursAndMinutes
            estimatedDoneTime := estimatedDoneTime
            confidence := confidence
            assumptions := assumptions
            warnings := warnings }

/-- Result of `calculateStartTime`. -/
structure StartTimeResult where
  startTime : ℚ
  cookTime : CookTimeEstimate
  restTime : ℚ
  bufferMinutes : ℚ
deriving DecidableEq, Repr

/-- `calculateStartTime` (cooking.js lines 103-120): cook-time estimate plus
profile rest time plus a confidence-dependent buffer, subtracted from the
target serving time. -/
def calculateStartTime (kb : KB) (proteinType : String) (weightPounds : ℚ)
    (cookMethod : CookMethod) (targetServingTime : ℚ) (smokerTemp : Option ℚ)
    (nowMs : ℚ) : Except EngineError StartTimeResult :=
  match kb proteinType with
  | none => .error .unknownProtein
  | some profile =>
    match estimateCookTime kb proteinType weightPounds cookMethod smokerTemp nowMs with
    | .error e => .error e
    | .ok cookTime =>
      let restTime := profile.restTimeMinutes
      let bufferMinutes : ℚ :=
        if cookTime.confidence = .low then 120
        else if cookTime.confidence = .medium then 60
        else 30
      let totalMinutesNeeded := (cookTime.totalMinutes : ℚ) + restTime + bufferMinutes
      let startTime := dateAddMinutes targetServingTime (-totalMinutesNeeded)
      .ok { startTime := startTime
            cookTime := cookTime
            restTime := restTime
            bufferMinutes := bufferMinutes }

/-- Inclusive stall-zone membership test used at cooking.js lines 144 and
157-159: the profile has a stall range and the temperature lies within it. -/
def inStallRange (r : Option StallRange) (t : ℚ) : Bool :=
  match r with
  | some range => decide (range.start ≤ t ∧ t ≤ range.stop)
  | none => false

/-- Trend block of `analyzeTemperature` (cooking.js lines 134-155), already
guarded by `previousReadings.length >= 2`: rate over at most the last 5
readings, classified against the 2°F/hr threshold; non-positive time span
leaves the (`stable`, 0) defaults. -/
def trendCalc (stallRange : Option StallRange) (currentTemp : ℚ)
    (previousReadings : List Reading) : Trend × ℚ :=
  let recentReadings := lastN 5 previousReadings
  let firstReading := recentReadings.head?.getD { temp := 0, timestamp := 0 }
  let lastReading := recentReadings.getLast?.getD { temp := 0, timestamp := 0 }
  let tempChange := lastReading.temp - firstReading.temp
  let timeChange := (lastReading.timestamp - firstReading.timestamp) / (1000 * 60 * 60)
  if 0 < timeChange then
    let trendRatePerHour := tempChange / timeChange
    if |trendRatePerHour| < 2 then
      (if inStallRange stallRange currentTemp then .stalled else .stable, trendRatePerHour)
    else if 0 < trendRatePerHour then (.rising, trendRatePerHour)
    else (.falling, trendRatePerHour)
  else (.stable, 0)

/-- `TemperatureAnalysis` (types.ts).  `percentComplete` is a `JSNum`
because the source can produce `NaN` there (see module comment);
`estimatedMinutesRemaining` is `none` where JS returns `null`. -/
structure TemperatureAnalysis where
  currentTemp : ℚ
  targetTemp : ℚ
  tempDelta : ℚ
  percentComplete : JSNum
  trend : Trend
  trendRatePerHour : ℚ
  estimatedMinutesRemaining : Option ℤ
  inStallZone : Bool
  recommendations : List String
deriving DecidableEq, Repr

/-- True when the name of the optional cook method contains `"smoke"`
(cooking.js line 190: `cookMethod?.includes("smoke")`). -/
def methodIncludesSmoke : Option CookMethod → Bool
  | some .smoke_low_slow => true
  | some .smoke_hot_fast => true
  | _ => false

/-- `analyzeTemperature` (cooking.js lines 124-208).  `cookStartTime` is a
parameter of the source function that its body never reads. -/
def analyzeTemperature (kb : KB) (currentTemp targetTemp : ℚ)
    (proteinType : String) (cookMethod : Option CookMethod)
    (cookStartTime : Option ℚ) (previousReadings : Option (List Reading)) :
    Except EngineError TemperatureAnalysis :=
  match kb proteinType with
  | none => .error .unknownProtein
  | some profile =>
    let tempDelta := targetTemp - currentTemp
    let startingTemp : ℚ := 40
    let totalTempRange := targetTemp - startingTemp
    let tempProgress := currentTemp - startingTemp
    let percentComplete := jsMin 100 (jsMax 0 (jsMul (jsDivQ tempProgress totalTempRange) 100))
    let prs := previousReadings.getD []
    let trendPair :=
      if 2 ≤ prs.length then trendCalc profile.stallRange currentTemp prs
      else (Trend.stable, (0 : ℚ))
    let trend := trendPair.1
    let trendRatePerHour := trendPair.2
    let inStallZone := inStallRange profile.stallRange currentTemp
    let estimatedMinutesRemaining : Option ℤ :=
      if 0 < trendRatePerHour ∧ trend = .rising then
        some (jsRound (tempDelta / trendRatePerHour * 60))
      else none
    let recommendations :=
      (if inStallZone ∧ trend = .stalled then
        ["🛑 You\x27re in the stall zone! Temperature may plateau for 2-4 hours.",
         "💡 Consider wrapping in butcher paper or foil (Texas crutch) to push through faster."]
       else if inStallZone ∧ trend = .rising then
        ["📈 Temperature is rising through the stall zone - looking good!"]
       else []) ++
      (if tempDelta ≤ profile.carryoverDegrees + 5 then
        ["🎯 Getting close! Consider pulling at " ++
          toString (targetTemp - profile.carryoverDegrees) ++
          "°F to account for carryover."]
       else []) ++
      (if tempDelta ≤ 0 then
        ["✅ Target temperature reached! Time to rest."] ++
        (if profile.requiresRest then
          ["⏰ Rest for " ++ toString profile.restTimeMinutes ++ " minutes before slicing."]
         else [])
       else []) ++
      (if trend = .falling then
        ["⚠️ Temperature is dropping - check your heat source!"] ++
        (if methodIncludesSmoke cookMethod then
          ["🔥 You may need to add more fuel or adjust airflow."]
         else [])
       else []) ++
      (if jsLtC percentComplete 25 ∧ previousReadings.isSome ∧ 0 < prs.length then
        ["🕐 Still in early stages - patience is key!"]
       else [])
    .ok { currentTemp := currentTemp
          targetTemp := targetTemp
          tempDelta := tempDelta
          percentComplete := jsRound10 percentComplete
          trend := trend
          trendRatePerHour := round1 trendRatePerHour
          estimatedMinutesRemaining := estimatedMinutesRemaining
          inStallZone := inStallZone
          recommendations := recommendations }

/-- `StallResult` (types.ts). -/
structure StallResult where
  isStalled : Bool
  stallDurationMinutes : ℤ
  inStallZone : Bool
  recommendation : String
deriving DecidableEq, Repr

/-- Oldest timestamp of the trailing contiguous run of readings inside the
stall range, scanning backward from the newest reading (the loop at
cooking.js lines 264-272 overwrites the duration on each in-range reading
and breaks at the first out-of-range one). -/
def stallRunStart (range : StallRange) (readings : List Reading) : Option ℚ :=
  ((readings.reverse.takeWhile
      (fun rd => decide (range.start ≤ rd.temp ∧ rd.temp ≤ range.stop))).getLast?).map
    (fun rd => rd.timestamp)

/-- `detectStall` (cooking.js lines 212-297).  `nowMs` is the `new Date()`
the source reads while computing the stall duration. -/
def detectStall (kb : KB) (proteinType : String) (currentTemp : ℚ)
    (readings : List Reading) (nowMs : ℚ) : Except EngineError StallResult :=
  match kb proteinType with
  | none => .error .unknownProtein
  | some profile =>
    match profile.stallRange with
    | none =>
      .ok { isStalled := false
            stallDurationMinutes := 0
            inStallZone := false
            recommendation := profile.displayName ++
              " typically doesn\x27t experience a stall." }
    | some range =>
      if currentTemp < range.start then
        .ok { isStalled := false
              stallDurationMinutes := 0
              inStallZone := false
              recommendation := "Approaching stall zone (" ++ toString range.start ++
                "-" ++ toString range.stop ++ "°F). Be prepared for a plateau." }
      else if range.stop < currentTemp then
        .ok { isStalled := false
              stallDurationMinutes := 0
              inStallZone := false
              recommendation :=
                "You\x27ve pushed through the stall! Temperature should rise steadily now." }
      else
        let recentReadings := lastN 6 readings
        if recentReadings.length < 3 then
          .ok { isStalled := false
                stallDurationMinutes := 0
                inStallZone := true
                recommendation :=
                  "In the stall zone but need more readings to confirm stall status." }
        else
          let firstReading := recentReadings.head?.getD { temp := 0, timestamp := 0 }
          let lastReading := recentReadings.getLast?.getD { temp := 0, timestamp := 0 }
          let tempChange := lastReading.temp - firstReading.temp
          let timeSpanMinutes := (lastReading.timestamp - firstReading.timestamp) / (1000 * 60)
          let tempRatePerHour := if 0 < timeSpanMinutes then tempChange / timeSpanMinutes * 60 else 0
          let isStalled := decide (tempRatePerHour < 3)
          let stallDurationMinutes : ℚ :=
            if isStalled ∧ 3 ≤ readings.length then
              match stallRunStart range readings with
              | some ts => (nowMs - ts) / (1000 * 60)
              | none => 0
            else 0
          let recommendation :=
            if isStalled then
              if stallDurationMinutes < 60 then
                "Stall detected! This is normal - evaporative cooling is slowing the temp rise. The stall can last 2-4 hours."
              else if stallDurationMinutes < 180 then
                "Stall has lasted " ++ toString (jsRound stallDurationMinutes) ++
                  " minutes. Consider wrapping in butcher paper (Texas crutch) to push through faster."
              else
                "Extended stall (" ++ toString (jsRound stallDurationMinutes) ++
                  " minutes). Wrapping is strongly recommended, or you can ride it out - eventually, it will break through."
            else
              "In the stall zone but temperature is still rising. Keep monitoring - you may push through without a major plateau."
          .ok { isStalled := isStalled
                stallDurationMinutes := jsRound stallDurationMinutes
                inStallZone := true
                recommendation := recommendation }

/-- `RestResult` (types.ts `bbq_calculate_rest_time` result shape). -/
structure RestResult where
  recommendedRestMinutes : ℚ
  expectedCarryover : ℚ
  expectedFinalTemp : ℚ
  instructions : List String
deriving DecidableEq, Repr

/-- `calculateRestTime` (cooking.js lines 301-339). -/
def calculateRestTime (kb : KB) (proteinType : String) (currentTemp : ℚ)
    (targetFinalTemp : Option ℚ) : Except EngineError RestResult :=
  match kb proteinType with
  | none => .error .unknownProtein
  | some profile =>
    let expectedCarryover := profile.carryoverDegrees
    let expectedFinalTemp := currentTemp + expectedCarryover
    let recommendedRestMinutes := profile.restTimeMinutes
    let instructions :=
      if ¬ profile.requiresRest then
        [profile.displayName ++ " doesn\x27t require significant resting.",
         "Serve immediately for best results."]
      else
        ["Rest for " ++ toString recommendedRestMinutes ++ " minutes.",
         "Temperature will rise approximately " ++ toString expectedCarryover ++ "°F during rest.",
         "Expected final temperature: " ++ toString expectedFinalTemp ++ "°F"] ++
        (if profile.category = .beef ∧
            (proteinType = "beef_brisket" ∨ proteinType = "beef_prime_rib") then
          ["For large roasts, rest in a cooler (without ice) wrapped in towels for up to 4 hours."]
         else if profile.category = .poultry then
          ["Rest uncovered or loosely tented to keep skin crispy."]
         else
          ["Rest loosely tented with foil to retain heat."]) ++
        (match targetFinalTemp with
         | some tft =>
           if tft ≠ 0 ∧ expectedFinalTemp < tft then
             ["⚠️ Final temp may be " ++ toString (tft - expectedFinalTemp) ++
               "°F below target. Consider pulling a bit later next time."]
           else if tft ≠ 0 ∧ tft + 5 < expectedFinalTemp then
             ["⚠️ Final temp may exceed target. Next time, pull earlier at " ++
               toString (tft - expectedCarryover) ++ "°F."]
           else []
         | none => [])
    .ok { recommendedRestMinutes := recommendedRestMinutes
          expectedCarryover := expectedCarryover
          expectedFinalTemp := expectedFinalTemp
          instructions := instructions }

/-- A brisket-like test profile used as concrete input in witnesses: it has
a stall range, so it exercises the stall branches.  (Concrete inputs only;
the engine is parametric in the Knowledge Base.) -/
def briskTest : ProteinProfile :=
  { displayName := "Beef Brisket"
    category := .beef
    usdaSafeTemp := 145
    requiresRest := true
    restTimeMinutes := 60
    carryoverDegrees := 5
    donenessTemps := [(.pullable, 203), (.usda_safe, 145)]
    recommendedMethods := [.smoke_low_slow, .smoke_hot_fast]
    stallRange := some { start := 150, stop := 175 }
    estimatedTimePerPound := fun m =>
      match m with
      | .smoke_low_slow => 70
      | .smoke_hot_fast => 45
      | _ => 0
    tips := [] }

/-- A quick-cook test profile without a stall range, used as concrete input
in witnesses. -/
def quickTest : ProteinProfile :=
  { displayName := "Chicken Breast"
    category := .poultry
    usdaSafeTemp := 165
    requiresRest := false
    restTimeMinutes := 5
    carryoverDegrees := 3
    donenessTemps := [(.usda_safe, 165)]
    recommendedMethods := [.grill_direct]
    stallRange := none
    estimatedTimePerPound := fun m =>
      match m with
      | .grill_direct => 10
      | .smoke_low_slow => 20
      | _ => 0
    tips := [] }

/-- A two-entry test Knowledge Base used as concrete input in witnesses and
counterexamples. -/
def testKB : KB := fun pid =>
  if pid = "beef_brisket" then some briskTest
  else if pid = "chicken_breast" then some quickTest
  else none

/-- Witness readings for the C6 spec scenario: 155→157°F over three hours,
oldest first. -/
def stallReadings : List Reading :=
  [{ temp := 155, timestamp := 0 }, { temp := 156, timestamp := 3600000 },
   { temp := 156, timestamp := 7200000 }, { temp := 157, timestamp := 10800000 }]

/-- Witness readings for C10: three readings sharing one timestamp. -/
def dupReadings : List Reading :=
  [{ temp := 155, timestamp := 0 }, { temp := 156, timestamp := 0 },
   { temp := 157, timestamp := 0 }]

/-- Witness readings for C5: the rising scenario of the spec, 145→165°F over
three hours, oldest first. -/
def risingReadings : List Reading :=
  [{ temp := 145, timestamp := 0 }, { temp := 155, timestamp := 3600000 },
   { temp := 162, timestamp := 7200000 }, { temp := 165, timestamp := 10800000 }]

/-- The clock-independent fields of a cook-time estimate: everything except
estimatedDoneTime. -/
def stripClock (r : CookTimeEstimate) : ℤ × String × Confidence × List String × List String :=
  (r.totalMinutes, r.hoursAndMinutes, r.confidence, r.assumptions, r.warnings)

/-- The clock-independent fields of a calculateStartTime result: everything
except the estimatedDoneTime nested inside cookTime. -/
def stripClockStart (r : StartTimeResult) :
    ℚ × (ℤ × String × Confidence × List String × List String) × ℚ × ℚ :=
  (r.startTime, stripClock r.cookTime, r.restTime, r.bufferMinutes)

/-- C1: for every protein identifier not in the Knowledge Base, each engine
operation taking a protein identifier (getTargetTemperature/resolveTarget,
estimateCookTime, calculateStartTime, analyzeTemperature, detectStall,
calculateRestTime) fails with the UnknownProtein error, rather than
returning a normal result or failing with an unrelated error. -/
theorem unknownProtein_surfaced (kb : KB) (pid : String) (h : kb pid = none) :
    (∀ d, getTargetTemperature kb pid d = .error .unknownProtein) ∧
    (∀ w m st now, estimateCookTime kb pid w m st now = .error .unknownProtein) ∧
    (∀ w m t st now, calculateStartTime kb pid w m t st now = .error .unknownProtein) ∧
    (∀ c t m cst pr, analyzeTemperature kb c t pid m cst pr = .error .unknownProtein) ∧
    (∀ c rs now, detectStall kb pid c rs now = .error .unknownProtein) ∧
    (∀ c tft, calculateRestTime kb pid c tft = .error .unknownProtein) := by
  refine ⟨?_, ?_, ?_, ?_, ?_, ?_⟩ <;> intros <;>
    simp [getTargetTemperature, estimateCookTime, calculateStartTime,
      analyzeTemperature, detectStall, calculateRestTime, h]

/-- Witness for C1 at the concrete identifier "zebra", absent from the test
Knowledge Base. -/
theorem unknownProtein_surfaced_witness :
    testKB "zebra" = none ∧
    getTargetTemperature testKB "zebra" none = .error .unknownProtein ∧
    estimateCookTime testKB "zebra" 10 .smoke_low_slow none 0 = .error .unknownProtein ∧
    calculateStartTime testKB "zebra" 10 .smoke_low_slow 0 none 0 = .error .unknownProtein ∧
    analyzeTemperature testKB 150 203 "zebra" none none none = .error .unknownProtein ∧
    detectStall testKB "zebra" 150 [] 0 = .error .unknownProtein ∧
    calculateRestTime testKB "zebra" 150 none = .error .unknownProtein := by
  have h := unknownProtein_surfaced testKB "zebra" rfl
  exact ⟨rfl, h.1 none, h.2.1 10 .smoke_low_slow none 0, h.2.2.1 10 .smoke_low_slow 0 none 0,
    h.2.2.2.1 150 203 none none none, h.2.2.2.2.1 150 [] 0, h.2.2.2.2.2 150 none⟩

/-- C4: for every protein and cook method whose minutes-per-pound entry is
exactly zero, estimateCookTime never fails and returns a zero-minute
estimate with confidence low and a non-empty warnings list stating the
method is not recommended. -/
theorem estimateCookTime_zero_mpp (kb : KB) (pid : String) (p : ProteinProfile)
    (w : ℚ) (m : CookMethod) (st : Option ℚ) (now : ℚ)
    (hkb : kb pid = some p) (hz : p.estimatedTimePerPound m = 0) :
    ∃ r, estimateCookTime kb pid w m st now = .ok r ∧
      r.totalMinutes = 0 ∧ r.confidence = .low ∧ r.warnings ≠ [] ∧
      r.warnings = [cookMethodDisplayName m ++ " is not recommended for " ++ p.displayName] := by
  have h : estimateCookTime kb pid w m st now = .ok
      { totalMinutes := 0
        hoursAndMinutes := "Not recommended"
        estimatedDoneTime := now
        confidence := .low
        assumptions := []
        warnings := [cookMethodDisplayName m ++ " is not recommended for " ++ p.displayName] } := by
    simp [estimateCookTime, hkb, hz]
  exact ⟨_, h, rfl, rfl, by simp, rfl⟩

/-- Witness for C4: rotisserie has zero minutes-per-pound in the quick-cook
test profile. -/
theorem estimateCookTime_zero_mpp_witness :
    testKB "chicken_breast" = some quickTest ∧
    quickTest.estimatedTimePerPound .rotisserie = 0 ∧
    ∃ r, estimateCookTime testKB "chicken_breast" 2 .rotisserie none 0 = .ok r ∧
      r.totalMinutes = 0 ∧ r.confidence = .low ∧ r.warnings ≠ [] ∧
      r.warnings = [cookMethodDisplayName .rotisserie ++ " is not recommended for " ++
        quickTest.displayName] := by
  exact ⟨rfl, rfl,
    estimateCookTime_zero_mpp testKB "chicken_breast" quickTest 2 .rotisserie none 0 rfl rfl⟩

/-- C8: for every protein profile with a non-empty doneness map,
getTargetTemperature without a doneness argument returns the same result as
passing the first doneness key explicitly, and every successful result has
pullTemp equal to targetTemp minus the profile carryover degrees. -/
theorem getTargetTemperature_default_and_pull (kb : KB) (pid : String)
    (p : ProteinProfile) (d0 : DonenessLevel) (t0 : ℚ)
    (rest : List (DonenessLevel × ℚ))
    (hkb : kb pid = some p) (hd : p.donenessTemps = (d0, t0) :: rest) :
    getTargetTemperature kb pid none = getTargetTemperature kb pid (some d0) ∧
    (∀ (d : Option DonenessLevel) (r : TargetResult),
      getTargetTemperature kb pid d = .ok r →
      r.pullTemp = r.targetTemp - p.carryoverDegrees) := by
  constructor
  · simp [getTargetTemperature, hkb, hd, lookupDoneness]
  · intro d r hr
    simp [getTargetTemperature, hkb] at hr
    subst hr
    rfl

/-- Witness for C8 at the brisket-like test profile, whose first doneness
entry is pullable at 203°F. -/
theorem getTargetTemperature_default_and_pull_witness :
    testKB "beef_brisket" = some briskTest ∧
    briskTest.donenessTemps = (.pullable, 203) :: [(.usda_safe, 145)] ∧
    getTargetTemperature testKB "beef_brisket" none =
      getTargetTemperature testKB "beef_brisket" (some .pullable) ∧
    (∀ (d : Option DonenessLevel) (r : TargetResult),
      getTargetTemperature testKB "beef_brisket" d = .ok r →
      r.pullTemp = r.targetTemp - briskTest.carryoverDegrees) := by
  have h := getTargetTemperature_default_and_pull testKB "beef_brisket" briskTest
    .pullable 203 [(.usda_safe, 145)] rfl rfl
  exact ⟨rfl, rfl, h.1, h.2⟩

/-- Helper for C9: the F→C→F round trip is the identity on every integer
temperature (the 0.05°F rounding error of the one-decimal F→C step is
scaled to at most 0.09°F by C→F, well under the 0.5°F needed to move the
final integer rounding). -/
theorem convert_roundTrip_int (v : ℤ) :
    convertTemperature (convertTemperature (v : ℚ) .fahrenheit .celsius) .celsius .fahrenheit
      = (v : ℚ) := by
  simp only [convertTemperature, jsRound, reduceCtorEq, reduceIte, false_and, and_false,
    and_self, if_false, if_true]
  have h1 := Int.floor_le (((v : ℚ) - 32) * 5 / 9 * 10 + 1 / 2)
  have h2 := Int.lt_floor_add_one (((v : ℚ) - 32) * 5 / 9 * 10 + 1 / 2)
  set r := ⌊((v : ℚ) - 32) * 5 / 9 * 10 + 1 / 2⌋ with hr
  have hfloor : ⌊(r : ℚ) / 10 * 9 / 5 + 32 + 1 / 2⌋ = v := by
    rw [Int.floor_eq_iff]
    constructor
    · linarith
    · linarith
  rw [hfloor]

/-- C9: convertTemperature is the identity when the units match; F→C lands
on a one-decimal grid and C→F on the integer grid; and the F→C→F round
trip of every integer input in [-40, 500] differs from the input by at most
1 (in fact, in exact arithmetic it is the identity). -/
theorem convertTemperature_props :
    (∀ (v : ℚ) (u : TempUnit), convertTemperature v u u = v) ∧
    (∀ v : ℚ, ∃ k : ℤ, convertTemperature v .fahrenheit .celsius * 10 = (k : ℚ)) ∧
    (∀ v : ℚ, ∃ k : ℤ, convertTemperature v .celsius .fahrenheit = (k : ℚ)) ∧
    (∀ v : ℤ, -40 ≤ v → v ≤ 500 →
      |convertTemperature (convertTemperature (v : ℚ) .fahrenheit .celsius)
          .celsius .fahrenheit - (v : ℚ)| ≤ 1) := by
  refine ⟨fun v u => by simp [convertTemperature], ?_, ?_, ?_⟩
  · intro v
    refine ⟨jsRound ((v - 32) * 5 / 9 * 10), ?_⟩
    simp [convertTemperature]
  · intro v
    refine ⟨jsRound (v * 9 / 5 + 32), ?_⟩
    simp [convertTemperature]
  · intro v _ _
    rw [convert_roundTrip_int v]
    simp

/-- Witness for the C9 round-trip bound at the concrete input 225°F. -/
theorem convertTemperature_props_witness :
    (-40 : ℤ) ≤ 225 ∧ (225 : ℤ) ≤ 500 ∧
    |convertTemperature (convertTemperature ((225 : ℤ) : ℚ) .fahrenheit .celsius)
        .celsius .fahrenheit - ((225 : ℤ) : ℚ)| ≤ 1 := by
  exact ⟨by decide, by decide,
    convertTemperature_props.2.2.2 225 (by decide) (by decide)⟩

/-- Counterexample to C3 as stated: at the supplied smoker temperature 0°F
(weight 2 lb, minutes-per-pound 10, no stall range), the claimed formula
adjustment = clamp(1 - (0 - 225)/250, 0.5, 1.5) = 1.5 predicts 30 total
minutes, but the `if (smokerTemp)` truthiness test of the source treats the
supplied 0 as absent, leaves the adjustment at 1.0 and returns 20. -/
theorem estimateCookTime_adjustment_cex :
    (estimateCookTime testKB "chicken_breast" 2 .grill_direct (some 0) 0).map
      (fun r => r.totalMinutes) = .ok 20 ∧
    jsRound ((10 : ℚ) * 2 * max (1 / 2) (min (3 / 2) (1 - ((0 : ℚ) - 225) / 250))) = 30 ∧
    (20 : ℤ) ≠ 30 := by
  refine ⟨?_, ?_, by decide⟩
  · simp [estimateCookTime, testKB, quickTest, Except.map]
    norm_num [jsRound]
  · norm_num [jsRound, max_def, min_def]

/-- C3 (amended): for every profile whose minutes-per-pound for the chosen
method is non-zero, every positive weight, and every supplied NONZERO
smokerTemp (a supplied 0 is treated as absent by the truthiness
test of the source), estimateCookTime computes adjustment = 1 - (smokerTemp - baseline)/250
clamped to [0.5, 1.5] with baseline 300°F for the hot/fast method and 225°F
otherwise, and totalMinutes is the rounded minutesPerPound × weight ×
adjustment plus a flat 60-minute buffer exactly when the profile has a
stall range; smokerTemp equal to the baseline yields the same estimate as
omitting it. -/
theorem estimateCookTime_adjustment (kb : KB) (pid : String) (p : ProteinProfile)
    (w : ℚ) (m : CookMethod) (st now : ℚ)
    (hkb : kb pid = some p) (hmpp : p.estimatedTimePerPound m ≠ 0)
    (hw : 0 < w) (hst : st ≠ 0) :
    ((estimateCookTime kb pid w m (some st) now).map (fun r => r.totalMinutes) =
      .ok (jsRound (p.estimatedTimePerPound m * w *
        max (1 / 2) (min (3 / 2)
          (1 - (st - (if m = .smoke_hot_fast then 300 else 225)) / 250)) +
        (if p.stallRange.isSome then 60 else 0)))) ∧
    estimateCookTime kb pid w m
        (some (if m = .smoke_hot_fast then 300 else 225)) now =
      estimateCookTime kb pid w m none now := by
  constructor
  · simp only [estimateCookTime, hkb]
    rw [if_neg hmpp]
    simp only [Except.map, Except.ok.injEq]
    rw [if_neg hst]
    rcases h : p.stallRange with _ | range <;>
      simp [h, HOT_FAST_TEMP, DEFAULT_SMOKER_TEMP]
  · simp only [estimateCookTime, hkb]
    rw [if_neg hmpp, if_neg hmpp]
    by_cases hm : m = CookMethod.smoke_hot_fast
    · simp [hm, HOT_FAST_TEMP]
      norm_num [max_def, min_def]
    · simp [hm, DEFAULT_SMOKER_TEMP]
      norm_num [max_def, min_def]

/-- Witness for the amended C3 at the quick-cook test profile, weight 2,
direct grilling, supplied smoker temperature 250°F. -/
theorem estimateCookTime_adjustment_witness :
    testKB "chicken_breast" = some quickTest ∧
    quickTest.estimatedTimePerPound .grill_direct ≠ 0 ∧
    (0 : ℚ) < 2 ∧ (250 : ℚ) ≠ 0 ∧
    (((estimateCookTime testKB "chicken_breast" 2 .grill_direct (some 250) 0).map
        (fun r => r.totalMinutes) =
      .ok (jsRound (quickTest.estimatedTimePerPound .grill_direct * 2 *
        max (1 / 2) (min (3 / 2)
          (1 - ((250 : ℚ) - (if CookMethod.grill_direct = .smoke_hot_fast then 300 else 225)) / 250)) +
        (if quickTest.stallRange.isSome then 60 else 0)))) ∧
    estimateCookTime testKB "chicken_breast" 2 .grill_direct
        (some (if CookMethod.grill_direct = .smoke_hot_fast then 300 else 225)) 0 =
      estimateCookTime testKB "chicken_breast" 2 .grill_direct none 0) := by
  refine ⟨rfl, by simp [quickTest], by norm_num, by norm_num, ?_⟩
  exact estimateCookTime_adjustment testKB "chicken_breast" quickTest 2 .grill_direct 250 0
    rfl (by simp [quickTest]) (by norm_num) (by norm_num)

/-- Counterexample to C7 as stated: at currentTemp = targetTemp = 40°F the
source computes (40 − 40)/(40 − 40) × 100 = 0/0 = NaN, `Math.max`/`Math.min`
propagate the NaN through the clamp, and the returned percentComplete is
NaN — not a number between 0 and 100. -/
theorem percentComplete_nan_cex :
    (analyzeTemperature testKB 40 40 "beef_brisket" none none none).map
      (fun r => r.percentComplete) = .ok JSNum.nan ∧
    ∀ q : ℚ, (analyzeTemperature testKB 40 40 "beef_brisket" none none none).map
      (fun r => r.percentComplete) ≠ .ok (JSNum.num q) := by
  have h : (analyzeTemperature testKB 40 40 "beef_brisket" none none none).map
      (fun r => r.percentComplete) = .ok JSNum.nan := by
    simp [analyzeTemperature, testKB, briskTest, Except.map, jsDivQ, jsMul, jsMax,
      jsMin, jsRound10, jsLtC, inStallRange, methodIncludesSmoke]
  refine ⟨h, fun q h' => ?_⟩
  rw [h] at h'
  simp at h'

/-- Bounds helper: rounding a value clamped to [0, 100] to one decimal
place stays in [0, 100]. -/
theorem round1_clamp_bounds (x : ℚ) :
    0 ≤ round1 (min 100 (max 0 x)) ∧ round1 (min 100 (max 0 x)) ≤ 100 := by
  have hv0 : (0 : ℚ) ≤ min 100 (max 0 x) := le_min (by norm_num) (le_max_left 0 x)
  have hv1 : min 100 (max 0 x) ≤ 100 := min_le_left _ _
  have h0 : (0 : ℤ) ≤ ⌊min 100 (max 0 x) * 10 + 1 / 2⌋ := Int.floor_nonneg.mpr (by linarith)
  have h1 : ⌊min 100 (max 0 x) * 10 + 1 / 2⌋ ≤ 1000 := by
    have hm := Int.floor_mono (show min 100 (max 0 x) * 10 + 1 / 2 ≤ (2001 : ℚ) / 2 by linarith)
    have he : ⌊(2001 : ℚ) / 2⌋ = 1000 := by norm_num
    omega
  have hc0 : (0 : ℚ) ≤ (⌊min 100 (max 0 x) * 10 + 1 / 2⌋ : ℚ) := by exact_mod_cast h0
  have hc1 : ((⌊min 100 (max 0 x) * 10 + 1 / 2⌋ : ℤ) : ℚ) ≤ 1000 := by exact_mod_cast h1
  rw [round1, jsRound]
  constructor
  · positivity
  · linarith

/-- C7 (amended): for every currentTemp and every targetTemp other than the
fixed 40°F starting temperature (where the source divides by zero and
returns NaN), analyzeTemperature returns
percentComplete = clamp((currentTemp − 40)/(targetTemp − 40) × 100, 0, 100)
rounded to one decimal place, a value always between 0 and 100 inclusive. -/
theorem percentComplete_clamped (kb : KB) (pid : String) (p : ProteinProfile)
    (cur tgt : ℚ) (cm : Option CookMethod) (cst : Option ℚ)
    (pr : Option (List Reading))
    (hkb : kb pid = some p) (htgt : tgt ≠ 40) :
    (analyzeTemperature kb cur tgt pid cm cst pr).map (fun r => r.percentComplete) =
      .ok (.num (round1 (min 100 (max 0 ((cur - 40) / (tgt - 40) * 100))))) ∧
    0 ≤ round1 (min 100 (max 0 ((cur - 40) / (tgt - 40) * 100))) ∧
    round1 (min 100 (max 0 ((cur - 40) / (tgt - 40) * 100))) ≤ 100 := by
  have hden : tgt - 40 ≠ 0 := sub_ne_zero.mpr htgt
  refine ⟨?_, (round1_clamp_bounds _).1, (round1_clamp_bounds _).2⟩
  simp [analyzeTemperature, hkb, Except.map, jsDivQ, hden, jsMul, jsMax, jsMin, jsRound10]

/-- Witness for the amended C7 at current 165°F, target 203°F on the
brisket-like test profile. -/
theorem percentComplete_clamped_witness :
    testKB "beef_brisket" = some briskTest ∧ (203 : ℚ) ≠ 40 ∧
    ((analyzeTemperature testKB 165 203 "beef_brisket" none none none).map
        (fun r => r.percentComplete) =
      .ok (.num (round1 (min 100 (max 0 (((165 : ℚ) - 40) / ((203 : ℚ) - 40) * 100))))) ∧
    0 ≤ round1 (min 100 (max 0 (((165 : ℚ) - 40) / ((203 : ℚ) - 40) * 100))) ∧
    round1 (min 100 (max 0 (((165 : ℚ) - 40) / ((203 : ℚ) - 40) * 100))) ≤ 100) := by
  exact ⟨rfl, by norm_num,
    percentComplete_clamped testKB "beef_brisket" briskTest 165 203 none none none
      rfl (by norm_num)⟩

/-- C6: detectStall returns not-stalled with zero duration when the profile
has no stall range or the current temperature is strictly below or above
the (inclusive) range; and when the temperature is inside the range, at
least 3 of the last 6 readings are available and their time span is
positive, it reports a stall exactly when the rate (Δtemp/Δminutes) × 60
across those readings is strictly below 3°F/hr. -/
theorem detectStall_classification (kb : KB) (pid : String) (p : ProteinProfile)
    (cur : ℚ) (rs : List Reading) (now : ℚ) (hkb : kb pid = some p) :
    (p.stallRange = none →
      (detectStall kb pid cur rs now).map (fun r => (r.isStalled, r.stallDurationMinutes)) =
        .ok (false, 0)) ∧
    (∀ range, p.stallRange = some range → cur < range.start →
      (detectStall kb pid cur rs now).map (fun r => (r.isStalled, r.stallDurationMinutes)) =
        .ok (false, 0)) ∧
    (∀ range, p.stallRange = some range → range.stop < cur →
      (detectStall kb pid cur rs now).map (fun r => (r.isStalled, r.stallDurationMinutes)) =
        .ok (false, 0)) ∧
    (∀ range f l, p.stallRange = some range → range.start ≤ cur → cur ≤ range.stop →
      3 ≤ (lastN 6 rs).length →
      (lastN 6 rs).head? = some f → (lastN 6 rs).getLast? = some l →
      0 < (l.timestamp - f.timestamp) / (1000 * 60) →
      ((detectStall kb pid cur rs now).map (fun r => r.isStalled) = .ok true ↔
        (l.temp - f.temp) / ((l.timestamp - f.timestamp) / (1000 * 60)) * 60 < 3)) := by
  refine ⟨?_, ?_, ?_, ?_⟩
  · intro h
    simp [detectStall, hkb, h, Except.map]
  · intro range h hlt
    simp [detectStall, hkb, h, Except.map, hlt]
  · intro range h hgt
    by_cases hlt : cur < range.start
    · simp [detectStall, hkb, h, Except.map, hlt]
    · simp [detectStall, hkb, h, Except.map, hlt, hgt]
  · intro range f l h hge hle hlen hf hl htspan
    have h1 : ¬ cur < range.start := not_lt.mpr hge
    have h2 : ¬ range.stop < cur := not_lt.mpr hle
    have h3 : ¬ (lastN 6 rs).length < 3 := not_lt.mpr hlen
    simp only [detectStall, hkb, h, Except.map, hf, hl, Option.getD_some,
      if_neg h1, if_neg h2, if_neg h3, if_pos htspan]
    constructor
    · intro hok
      have := Except.ok.inj hok
      simpa using this
    · intro hrate
      simp [hrate]

/-- Witness for C6 at the brisket stall scenario of the spec (157°F inside the
150–175°F test range, rate ≈ 0.67°F/hr < 3). -/
theorem detectStall_classification_witness :
    testKB "beef_brisket" = some briskTest ∧
    briskTest.stallRange = some { start := 150, stop := 175 } ∧
    (150 : ℚ) ≤ 157 ∧ (157 : ℚ) ≤ 175 ∧
    3 ≤ (lastN 6 stallReadings).length ∧
    (lastN 6 stallReadings).head? = some { temp := 155, timestamp := 0 } ∧
    (lastN 6 stallReadings).getLast? = some { temp := 157, timestamp := 10800000 } ∧
    (0 : ℚ) < ((10800000 : ℚ) - 0) / (1000 * 60) ∧
    (detectStall testKB "beef_brisket" 157 stallReadings 10800000).map
      (fun r => r.isStalled) = .ok true := by
  have h := (detectStall_classification testKB "beef_brisket" briskTest 157 stallReadings
    10800000 rfl).2.2.2 { start := 150, stop := 175 }
    { temp := 155, timestamp := 0 } { temp := 157, timestamp := 10800000 }
    rfl (by norm_num) (by norm_num) (by decide) rfl rfl (by norm_num)
  refine ⟨rfl, rfl, by norm_num, by norm_num, by decide, rfl, rfl, by norm_num, ?_⟩
  exact h.mpr (by norm_num)

/-- C10: when the current temperature is inside the stall range, at least 3
of the last 6 readings are available but their time span is zero or
negative, the rate defaults to 0 and detectStall reports a confirmed stall
(isStalled = true). -/
theorem detectStall_zero_span (kb : KB) (pid : String) (p : ProteinProfile)
    (cur : ℚ) (rs : List Reading) (now : ℚ) (range : StallRange) (f l : Reading)
    (hkb : kb pid = some p) (h : p.stallRange = some range)
    (hge : range.start ≤ cur) (hle : cur ≤ range.stop)
    (hlen : 3 ≤ (lastN 6 rs).length)
    (hf : (lastN 6 rs).head? = some f) (hl : (lastN 6 rs).getLast? = some l)
    (htspan : (l.timestamp - f.timestamp) / (1000 * 60) ≤ 0) :
    (detectStall kb pid cur rs now).map (fun r => r.isStalled) = .ok true := by
  have h1 : ¬ cur < range.start := not_lt.mpr hge
  have h2 : ¬ range.stop < cur := not_lt.mpr hle
  have h3 : ¬ (lastN 6 rs).length < 3 := not_lt.mpr hlen
  have h4 : ¬ (0 : ℚ) < (l.timestamp - f.timestamp) / (1000 * 60) := not_lt.mpr htspan
  simp only [detectStall, hkb, h, Except.map, hf, hl, Option.getD_some,
    if_neg h1, if_neg h2, if_neg h3, if_neg h4]
  norm_num

/-- Witness for C10 at duplicate-timestamp readings inside the test stall
range. -/
theorem detectStall_zero_span_witness :
    testKB "beef_brisket" = some briskTest ∧
    briskTest.stallRange = some { start := 150, stop := 175 } ∧
    (150 : ℚ) ≤ 157 ∧ (157 : ℚ) ≤ 175 ∧
    3 ≤ (lastN 6 dupReadings).length ∧
    (lastN 6 dupReadings).head? = some { temp := 155, timestamp := 0 } ∧
    (lastN 6 dupReadings).getLast? = some { temp := 157, timestamp := 0 } ∧
    ((0 : ℚ) - 0) / (1000 * 60) ≤ 0 ∧
    (detectStall testKB "beef_brisket" 157 dupReadings 0).map
      (fun r => r.isStalled) = .ok true := by
  refine ⟨rfl, rfl, by norm_num, by norm_num, by decide, rfl, rfl, by norm_num, ?_⟩
  exact detectStall_zero_span testKB "beef_brisket" briskTest 157 dupReadings 0
    { start := 150, stop := 175 } { temp := 155, timestamp := 0 }
    { temp := 157, timestamp := 0 } rfl rfl (by norm_num) (by norm_num) (by decide)
    rfl rfl (by norm_num)

/-- C5: with at least 2 prior readings, analyzeTemperature computes its
trend from at most the last 5 readings (oldest first) as
rate = Δtemp / Δhours; a non-positive time span leaves trend stable with
rate 0 and no error; otherwise |rate| < 2°F/hr classifies as stalled when
the current temperature is inclusively inside the profile stall range and
stable otherwise, rate ≥ 2 as rising and rate ≤ −2 as falling. -/
theorem analyzeTemperature_trend (kb : KB) (pid : String) (p : ProteinProfile)
    (cur tgt : ℚ) (cm : Option CookMethod) (cst : Option ℚ)
    (prs : List Reading) (f l : Reading)
    (hkb : kb pid = some p) (hlen : 2 ≤ prs.length)
    (hf : (lastN 5 prs).head? = some f) (hl : (lastN 5 prs).getLast? = some l) :
    ((l.timestamp - f.timestamp) / (1000 * 60 * 60) ≤ 0 →
      (analyzeTemperature kb cur tgt pid cm cst (some prs)).map
        (fun r => (r.trend, r.trendRatePerHour)) = .ok (.stable, 0)) ∧
    (∀ rate, 0 < (l.timestamp - f.timestamp) / (1000 * 60 * 60) →
      rate = (l.temp - f.temp) / ((l.timestamp - f.timestamp) / (1000 * 60 * 60)) →
      (|rate| < 2 →
        (analyzeTemperature kb cur tgt pid cm cst (some prs)).map (fun r => r.trend) =
          .ok (if inStallRange p.stallRange cur then .stalled else .stable)) ∧
      (2 ≤ rate →
        (analyzeTemperature kb cur tgt pid cm cst (some prs)).map (fun r => r.trend) =
          .ok .rising) ∧
      (rate ≤ -2 →
        (analyzeTemperature kb cur tgt pid cm cst (some prs)).map (fun r => r.trend) =
          .ok .falling)) := by
  constructor
  · intro htc
    have hn : ¬ (0 : ℚ) < (l.timestamp - f.timestamp) / (1000 * 60 * 60) := not_lt.mpr htc
    simp only [analyzeTemperature, hkb, Except.map, Option.getD_some, if_pos hlen,
      trendCalc, hf, hl, if_neg hn]
    norm_num [round1, jsRound]
  · intro rate htc hrate
    refine ⟨?_, ?_, ?_⟩ <;> intro hcmp
    · rw [hrate] at hcmp
      simp only [analyzeTemperature, hkb, Except.map, Option.getD_some, if_pos hlen,
        trendCalc, hf, hl, if_pos htc, if_pos hcmp]
    · rw [hrate] at hcmp
      have hna : ¬ |(l.temp - f.temp) / ((l.timestamp - f.timestamp) / (1000 * 60 * 60))| < 2 := by
        rw [abs_lt]
        push_neg
        intro h2
        linarith
      have hpos : 0 < (l.temp - f.temp) / ((l.timestamp - f.timestamp) / (1000 * 60 * 60)) := by
        linarith
      simp only [analyzeTemperature, hkb, Except.map, Option.getD_some, if_pos hlen,
        trendCalc, hf, hl, if_pos htc, if_neg hna, if_pos hpos]
    · rw [hrate] at hcmp
      have hna : ¬ |(l.temp - f.temp) / ((l.timestamp - f.timestamp) / (1000 * 60 * 60))| < 2 := by
        rw [abs_lt]
        push_neg
        intro h2
        linarith
      have hnp : ¬ 0 < (l.temp - f.temp) / ((l.timestamp - f.timestamp) / (1000 * 60 * 60)) := by
        linarith
      simp only [analyzeTemperature, hkb, Except.map, Option.getD_some, if_pos hlen,
        trendCalc, hf, hl, if_pos htc, if_neg hna, if_neg hnp]

/-- Witness for C5 at the rising scenario of the spec: rate 20/3 ≈ 6.7°F/hr ≥ 2
classifies as rising. -/
theorem analyzeTemperature_trend_witness :
    testKB "beef_brisket" = some briskTest ∧
    2 ≤ risingReadings.length ∧
    (lastN 5 risingReadings).head? = some { temp := 145, timestamp := 0 } ∧
    (lastN 5 risingReadings).getLast? = some { temp := 165, timestamp := 10800000 } ∧
    (0 : ℚ) < ((10800000 : ℚ) - 0) / (1000 * 60 * 60) ∧
    2 ≤ ((165 : ℚ) - 145) / (((10800000 : ℚ) - 0) / (1000 * 60 * 60)) ∧
    (analyzeTemperature testKB 165 203 "beef_brisket" (some .smoke_low_slow) none
      (some risingReadings)).map (fun r => r.trend) = .ok .rising := by
  have h := (analyzeTemperature_trend testKB "beef_brisket" briskTest 165 203
    (some .smoke_low_slow) none risingReadings
    { temp := 145, timestamp := 0 } { temp := 165, timestamp := 10800000 }
    rfl (by decide) rfl rfl).2
    (((165 : ℚ) - 145) / (((10800000 : ℚ) - 0) / (1000 * 60 * 60)))
    (by norm_num) rfl
  exact ⟨rfl, by decide, rfl, rfl, by norm_num, by norm_num, h.2.1 (by norm_num)⟩

/-- Counterexample to C2 as stated: two estimateCookTime calls with
identical arguments, made at different wall-clock instants (0 ms and
60000 ms), differ — the source computes estimatedDoneTime from
`new Date()`, ambient state that is not an argument. -/
theorem enginePurity_cex :
    estimateCookTime testKB "chicken_breast" 2 .rotisserie none 0 ≠
      estimateCookTime testKB "chicken_breast" 2 .rotisserie none 60000 := by
  have h0 : (estimateCookTime testKB "chicken_breast" 2 .rotisserie none 0).map
      (fun r => r.estimatedDoneTime) = .ok 0 := by
    simp [estimateCookTime, testKB, quickTest, Except.map]
  have h1 : (estimateCookTime testKB "chicken_breast" 2 .rotisserie none 60000).map
      (fun r => r.estimatedDoneTime) = .ok 60000 := by
    simp [estimateCookTime, testKB, quickTest, Except.map]
  intro h
  rw [h] at h0
  rw [h0] at h1
  simp at h1

/-- C2 (amended): every engine operation is a pure function of its explicit
arguments and the wall-clock call time; getTargetTemperature,
analyzeTemperature, calculateRestTime and convertTemperature take no clock
input at all, while for the three clock-reading operations two calls with
identical arguments agree on every field other than the clock-derived
ones — estimatedDoneTime for estimateCookTime (also nested in
the cookTime of calculateStartTime) and stallDurationMinutes plus the duration
-based recommendation string for detectStall. -/
theorem enginePurity :
    (∀ (kb : KB) (pid : String) (w : ℚ) (m : CookMethod) (st : Option ℚ) (n₁ n₂ : ℚ),
      (estimateCookTime kb pid w m st n₁).map stripClock =
        (estimateCookTime kb pid w m st n₂).map stripClock) ∧
    (∀ (kb : KB) (pid : String) (w : ℚ) (m : CookMethod) (t : ℚ) (st : Option ℚ) (n₁ n₂ : ℚ),
      (calculateStartTime kb pid w m t st n₁).map stripClockStart =
        (calculateStartTime kb pid w m t st n₂).map stripClockStart) ∧
    (∀ (kb : KB) (pid : String) (cur : ℚ) (rs : List Reading) (n₁ n₂ : ℚ),
      (detectStall kb pid cur rs n₁).map (fun r => (r.isStalled, r.inStallZone)) =
        (detectStall kb pid cur rs n₂).map (fun r => (r.isStalled, r.inStallZone))) := by
  have hest : ∀ (kb : KB) (pid : String) (w : ℚ) (m : CookMethod) (st : Option ℚ) (n₁ n₂ : ℚ),
      (estimateCookTime kb pid w m st n₁).map stripClock =
        (estimateCookTime kb pid w m st n₂).map stripClock := by
    intro kb pid w m st n₁ n₂
    cases h : kb pid with
    | none => simp [estimateCookTime, h]
    | some p =>
      by_cases hz : p.estimatedTimePerPound m = 0 <;>
        simp [estimateCookTime, h, hz, Except.map, stripClock]
  refine ⟨hest, ?_, ?_⟩
  · intro kb pid w m t st n₁ n₂
    cases h : kb pid with
    | none => simp [calculateStartTime, h]
    | some p =>
      have h12 := hest kb pid w m st n₁ n₂
      rcases he1 : estimateCookTime kb pid w m st n₁ with e1 | c1 <;>
        rcases he2 : estimateCookTime kb pid w m st n₂ with e2 | c2
      · cases e1
        cases e2
        simp [calculateStartTime, h, he1, he2]
      · rw [he1, he2] at h12
        simp [Except.map] at h12
      · rw [he1, he2] at h12
        simp [Except.map] at h12
      · rw [he1, he2] at h12
        simp only [Except.map, Except.ok.injEq, stripClock, Prod.mk.injEq] at h12
        obtain ⟨htm, hhm, hconf, has, hwarn⟩ := h12
        simp [calculateStartTime, h, he1, he2, Except.map, stripClockStart, stripClock,
          htm, hhm, hconf, has, hwarn]
  · intro kb pid cur rs n₁ n₂
    cases h : kb pid with
    | none => simp [detectStall, h]
    | some p =>
      rcases hsr : p.stallRange with _ | range
      · simp [detectStall, h, hsr, Except.map]
      · simp only [detectStall, h, hsr]
        by_cases hb1 : cur < range.start
        · simp [hb1, Except.map]
        · by_cases hb2 : range.stop < cur
          · simp [hb1, hb2, Except.map]
          · by_cases hb3 : (lastN 6 rs).length < 3
            · simp [hb1, hb2, hb3, Except.map]
            · simp [hb1, hb2, hb3, Except.map]
